import Mathlib

namespace BlogThumb

/-! Shallow embedding of the blog-thumbnail-generator route handlers.

JavaScript strings are modelled as Lean strings, and the JS string
operations used by the handlers (slice, split, startsWith, regex literal
matching) are modelled at the character-list level so that every
definition is executable. External effects (HTTP fetches, the generative
model call, child processes, the filesystem) are modelled by explicit
environment records that fix the outcome of each effectful call, and the
handlers additionally report which effects they performed. -/

/-- JS String.prototype.slice(0, n), at the character level. -/
def jsSlice (s : String) (n : Nat) : String := String.mk (s.data.take n)

/-- leadMatch pat cs is true when pat is a leading segment of cs; this is
the test a regex literal (or literal alternative) performs at a fixed
position of the subject string. -/
def leadMatch : List Char → List Char → Bool
  | [], _ => true
  | _ :: _, [] => false
  | p :: ps, c :: cs => if p = c then leadMatch ps cs else false

/-- JS or-with-default on an optional string field, as in
`timestamp || "0:00"`: undefined and the empty string are falsy. -/
def jsOr (o : Option String) (d : String) : String :=
  match o with
  | some s => if s = "" then d else s
  | none => d

/-- Truthiness of an optional JS string (undefined and "" are falsy). -/
def truthyOpt (o : Option String) : Bool :=
  match o with
  | some s => s != ""
  | none => false

/-! Embedding of src/src/app/api/youtube/route.ts. -/

/-- Characters excluded by the capture class of the first regex of
extractVideoId, the negated set in ([^&\n?#]+). -/
def isDelim (c : Char) : Bool := c == '&' || c == '\n' || c == '?' || c == '#'

def pat1 : List Char := "youtube.com/watch?v=".data

def pat2 : List Char := "youtu.be/".data

def pat3 : List Char := "youtube.com/embed/".data

/-- One alternative of the first regex tried at a fixed position: the
literal must match there, and the capture group ([^&\n?#]+) then greedily
takes the maximal nonempty run of non-delimiter characters. -/
def captureAfter (pat cs : List Char) : Option (List Char) :=
  if leadMatch pat cs then
    let run := (cs.drop pat.length).takeWhile (fun c => !isDelim c)
    if run.isEmpty then none else some run
  else none

/-- The alternation of the first regex at a fixed position, alternatives
tried in source order. -/
def matchUrlAt (cs : List Char) : Option (List Char) :=
  match captureAfter pat1 cs with
  | some r => some r
  | none =>
    match captureAfter pat2 cs with
    | some r => some r
    | none => captureAfter pat3 cs

/-- Unanchored leftmost search of the first regex over the subject. -/
def scanFor : List Char → Option (List Char)
  | [] => none
  | c :: cs =>
    match matchUrlAt (c :: cs) with
    | some r => some r
    | none => scanFor cs

/-- The character class [a-zA-Z0-9_-] of the second regex. -/
def isIdChar (c : Char) : Bool := c.isAlpha || c.isDigit || c == '_' || c == '-'

/-- extractVideoId from src/src/app/api/youtube/route.ts: first regex
(watch?v= / youtu.be/ / embed/ with a delimiter-free capture), then the
anchored bare-token regex matching exactly 11 id-class characters. -/
def extractVideoId (url : String) : Option String :=
  match scanFor url.data with
  | some r => some (String.mk r)
  | none =>
    if url.data.length = 11 ∧ url.data.all isIdChar then some url else none

/-- The oEmbed metadata fields the handler reads. -/
structure OembedMeta where
  title : String
  author_name : String

/-- Outcome of the two outbound calls the lookup handler can make. -/
structure YoutubeEnv where
  oembed : Except Unit OembedMeta
  transcriptItems : Except Unit (List String)

structure YoutubeSuccess where
  videoId : String
  title : String
  author : String
  thumbnailUrl : String
  transcript : String
  deriving DecidableEq

inductive YoutubeResponse where
  | ok (body : YoutubeSuccess)
  | err (message : String) (status : Nat)
  deriving DecidableEq

inductive NetCall where
  | oembedFetch (url : String)
  | transcriptFetch (videoId : String)
  deriving DecidableEq

def oembedUrlOf (videoId : String) : String :=
  "https://www.youtube.com/oembed?url=https://www.youtube.com/watch?v=" ++ videoId ++ "&format=json"

def thumbUrlOf (videoId : String) : String :=
  "https://img.youtube.com/vi/" ++ videoId ++ "/maxresdefault.jpg"

/-- POST of src/src/app/api/youtube/route.ts. Returns the response
together with the list of outbound fetches performed, in order. -/
def youtubePOST (url : String) (env : YoutubeEnv) : YoutubeResponse × List NetCall :=
  if url = "" then (.err "URL is required" 400, [])
  else
    match extractVideoId url with
    | none => (.err "Invalid YouTube URL" 400, [])
    | some videoId =>
      match env.oembed with
      | .error _ => (.err "Failed to fetch video metadata" 400, [.oembedFetch (oembedUrlOf videoId)])
      | .ok metadata =>
        let transcript :=
          match env.transcriptItems with
          | .ok items => String.intercalate " " items
          | .error _ => ""
        (.ok { videoId := videoId
               title := metadata.title
               author := metadata.author_name
               thumbnailUrl := thumbUrlOf videoId
               transcript := jsSlice transcript 5000 },
         [.oembedFetch (oembedUrlOf videoId), .transcriptFetch videoId])

/-! Embedding of src/src/app/api/generate/route.ts and of the enhanced
generation endpoint (src/unnamed/part_001). -/

def SHOPIFY_IMAGE_WIDTH : Nat := 1200

def SHOPIFY_IMAGE_HEIGHT : Nat := 628

/-- One part of the provider response: an optional text field and the
optional inlineData.data field (the only fields the handlers read). -/
structure GeminiPart where
  text : Option String
  inlineData : Option String
  deriving DecidableEq

/-- The text-only generation prompt template shared verbatim by
src/src/app/api/generate/route.ts (lines 22-34) and the generate branch
of the enhanced endpoint (part_001 lines 77-89). -/
def generatePrompt (title transcript style : String) : String :=
  "Create a professional, high-quality blog featured image for the following content:\n\nTopic: "
    ++ title ++ "\n"
    ++ (if transcript ≠ "" then "Context: " ++ jsSlice transcript 1500 else "")
    ++ "\n\nRequirements:\n- Style: "
    ++ (if style ≠ "" then style else "modern, clean, professional")
    ++ "\n- Aspect ratio: 16:9 (horizontal, suitable for "
    ++ toString SHOPIFY_IMAGE_WIDTH ++ "x" ++ toString SHOPIFY_IMAGE_HEIGHT
    ++ ")\n- NO text, words, or letters in the image\n- Visually striking and eye-catching for a blog header\n- Professional quality, photorealistic or high-quality illustration\n- Rich colors and good composition\n- Represents the main theme/topic clearly"

/-- The enhancement prompt template of part_001 (lines 60-72). -/
def enhancePrompt (title transcript style : String) : String :=
  "Transform this image into a professional Shopify blog featured image.\n\nTopic context: "
    ++ title ++ "\n"
    ++ (if transcript ≠ "" then "Content context: " ++ jsSlice transcript 1000 else "")
    ++ "\n\nEnhancement requirements:\n- Apply a "
    ++ (if style ≠ "" then style else "modern, clean, professional")
    ++ " style\n- Optimize for blog header format (16:9 aspect ratio, "
    ++ toString SHOPIFY_IMAGE_WIDTH ++ "x" ++ toString SHOPIFY_IMAGE_HEIGHT
    ++ ")\n- Enhance colors, contrast, and visual appeal\n- Make it more eye-catching and professional\n- Keep the main subject/content from the original\n- DO NOT add any text, words, or letters\n- Create a polished, high-quality result suitable for a professional blog"

/-- The response-parts loop of both generation handlers: every truthy
part.text overwrites promptUsed and every truthy part.inlineData.data
overwrites imageData, starting from the given accumulator. -/
def assembleOutput : String × Option String → List GeminiPart → String × Option String
  | acc, [] => acc
  | acc, p :: rest =>
    let pu :=
      match p.text with
      | some t => if t ≠ "" then t else acc.1
      | none => acc.1
    let img :=
      match p.inlineData with
      | some d => if d ≠ "" then some d else acc.2
      | none => acc.2
    assembleOutput (pu, img) rest

/-- The last truthy text part of a provider response (the value the
overwrite loop leaves in promptUsed when at least one text part exists). -/
def lastText : List GeminiPart → Option String
  | [] => none
  | p :: rest =>
    match lastText rest with
    | some t => some t
    | none =>
      match p.text with
      | some t => if t ≠ "" then some t else none
      | none => none

/-- The last truthy inline-image part of a provider response. -/
def lastImage : List GeminiPart → Option String
  | [] => none
  | p :: rest =>
    match lastImage rest with
    | some d => some d
    | none =>
      match p.inlineData with
      | some d => if d ≠ "" then some d else none
      | none => none

structure GeneratedImage where
  imagePrompt : String
  imageData : String
  width : Nat
  height : Nat
  deriving DecidableEq

inductive GenResponse where
  | ok (body : GeneratedImage)
  | err (message : String) (status : Nat)
  deriving DecidableEq

structure GenerateReq where
  title : String
  transcript : String
  style : String

/-- Environment of /api/generate: the API key (absent or empty is falsy)
and the provider call outcome. An exception carries its message; a
successful call carries candidates[0]?.content?.parts when present. -/
structure GenerateEnv where
  apiKey : Option String
  provider : Except String (Option (List GeminiPart))

/-- POST of src/src/app/api/generate/route.ts. -/
def generatePOST (req : GenerateReq) (env : GenerateEnv) : GenResponse :=
  if !truthyOpt env.apiKey then .err "GEMINI_API_KEY not configured" 500
  else
    let imagePrompt := generatePrompt req.title req.transcript req.style
    match env.provider with
    | .error msg => .err msg 500
    | .ok o =>
      let parts := o.getD []
      let out := assembleOutput (imagePrompt, none) parts
      match out.2 with
      | none => .err "Failed to generate image - no image data in response" 500
      | some d =>
        .ok { imagePrompt := out.1
              imageData := "data:image/png;base64," ++ d
              width := SHOPIFY_IMAGE_WIDTH
              height := SHOPIFY_IMAGE_HEIGHT }

/-- The data-URI regex of part_001 line 38, data:([^;]+);base64,(.+)
anchored at both ends: the mime capture is the nonempty run before the
first semicolon, the literal ;base64, must follow it, and the payload is
the nonempty remainder, which (dot does not match newline, and the
dollar anchor is end-of-string) may not contain a newline. -/
def dataUriMatch (s : String) : Option (String × String) :=
  let cs := s.data
  if leadMatch "data:".data cs then
    let rest := cs.drop 5
    let mime := rest.takeWhile (fun c => c != ';')
    let after := rest.dropWhile (fun c => c != ';')
    if mime ≠ [] ∧ leadMatch ";base64,".data after then
      let payload := after.drop 8
      if payload ≠ [] ∧ payload.all (fun c => c != '\n') then
        some (String.mk mime, String.mk payload)
      else none
    else none
  else none

/-- A part of the request sent to the provider by the enhanced endpoint. -/
inductive EnhPart where
  | textPart (t : String)
  | imagePart (mimeType : String) (data : String)
  deriving DecidableEq

structure EnhancedReq where
  title : String
  transcript : String
  style : String
  sourceImage : Option String
  mode : Option String

/-- Environment of the enhanced endpoint: API key, the outcome of
fetchImageAsBase64 when the URL branch is taken, and the provider call. -/
structure EnhancedEnv where
  apiKey : Option String
  fetchImage : Except String String
  provider : Except String (Option (List GeminiPart))

/-- Observable outcome of the enhanced endpoint: the HTTP response,
whether the provider (generateContent) was invoked, and the request
parts array at the moment of invocation ([] when never reached). -/
structure EnhOutcome where
  response : GenResponse
  providerCalled : Bool
  sentParts : List EnhPart

/-- POST of the enhanced generation endpoint (src/unnamed/part_001). A
malformed data URI raises Error "Invalid base64 image format", which the
top-level catch turns into a 500 carrying the error message. -/
def enhancedPOST (req : EnhancedReq) (env : EnhancedEnv) : EnhOutcome :=
  if !truthyOpt env.apiKey then
    { response := .err "GEMINI_API_KEY not configured" 500
      providerCalled := false, sentParts := [] }
  else
    let builtParts : Except String (List EnhPart) :=
      if req.mode = some "enhance" ∧ truthyOpt req.sourceImage then
        let src := (req.sourceImage).getD ""
        if leadMatch "data:".data src.data then
          match dataUriMatch src with
          | some (mimeType, payload) =>
            .ok [.imagePart mimeType payload,
                 .textPart (enhancePrompt req.title req.transcript req.style)]
          | none => .error "Invalid base64 image format"
        else
          match env.fetchImage with
          | .ok b64 =>
            .ok [.imagePart "image/jpeg" b64,
                 .textPart (enhancePrompt req.title req.transcript req.style)]
          | .error msg => .error msg
      else
        .ok [.textPart (generatePrompt req.title req.transcript req.style)]
    match builtParts with
    | .error msg => { response := .err msg 500, providerCalled := false, sentParts := [] }
    | .ok parts =>
      match env.provider with
      | .error msg => { response := .err msg 500, providerCalled := true, sentParts := parts }
      | .ok o =>
        let rparts := o.getD []
        let defaultLabel :=
          if req.mode = some "enhance" then "Enhanced from source image" else "AI generated"
        let out := assembleOutput (defaultLabel, none) rparts
        match out.2 with
        | none =>
          { response := .err "Failed to generate image - no image data in response" 500
            providerCalled := true, sentParts := parts }
        | some d =>
          { response := .ok { imagePrompt := out.1
                              imageData := "data:image/png;base64," ++ d
                              width := SHOPIFY_IMAGE_WIDTH
                              height := SHOPIFY_IMAGE_HEIGHT }
            providerCalled := true, sentParts := parts }

/-! Embedding of the frame-extraction endpoint (second file of
src/unnamed/part_000, lines 293-391). -/

def digitsToNat (cs : List Char) : Nat :=
  cs.foldl (fun acc c => acc * 10 + (c.toNat - 48)) 0

/-- JS Number(s), modelled on the strings this endpoint computes with:
the empty string converts to 0, a nonempty all-digit string to its
decimal value, and any other string to NaN (represented as none). -/
def jsNumber (s : String) : Option Nat :=
  if s = "" then some 0
  else if s.data.all Char.isDigit then some (digitsToNat s.data)
  else none

/-- JS String.prototype.split with a single-character separator, at the
character level: splitting the empty string yields one empty component,
and n separators yield n+1 components. -/
def splitOnChar (sep : Char) : List Char → List (List Char)
  | [] => [[]]
  | c :: cs =>
    let r := splitOnChar sep cs
    if c = sep then [] :: r
    else
      match r with
      | [] => [[c]]
      | h :: t => (c :: h) :: t

/-- JS s.split(sep) for a one-character separator. -/
def jsSplit (s : String) (sep : Char) : List String :=
  (splitOnChar sep s.data).map String.mk

/-- parseTimestamp of part_000 lines 302-310: split on ":", convert each
component with Number; two components are minutes:seconds, three are
hours:minutes:seconds, any other count returns 0. A NaN component makes
the 2- and 3-component arithmetic NaN (none); the source expresses the
arity test as parts.length checks, matched here by list shape. -/
def parseTimestamp (timestamp : String) : Option Nat :=
  match (jsSplit timestamp ':').map jsNumber with
  | [a, b] => do
    let x ← a
    let y ← b
    pure (x * 60 + y)
  | [a, b, c] => do
    let x ← a
    let y ← b
    let z ← c
    pure (x * 3600 + y * 60 + z)
  | _ => some 0

inductive TempFile where
  | videoFile
  | frameFile
  deriving DecidableEq

inductive FrameResp where
  | okFrame (frameData : String)
  | okFallback (frameData : String) (note : String)
  | err (message : String) (status : Nat)
  deriving DecidableEq

structure FrameReq where
  videoId : Option String
  timestamp : Option String

/-- Environment of the frame endpoint: outcomes of the yt-dlp and ffmpeg
child processes, whether the frame file exists on disk after the ffmpeg
invocation (a failed or timed-out invocation may still have created the
file), the base64 content read from it, and an optional readFileSync
failure (whose message reaches the top-level catch). The video-path
placeholder is never written by any call in the handler. -/
structure FrameEnv where
  ytdlp : Except String String
  ffmpeg : Except String Unit
  ffmpegCreatedFrame : Bool
  frameBase64 : String
  readErr : Option String

/-- Observable outcome of the frame endpoint: the HTTP response, the
unlink calls actually performed (in order), and which temp files still
exist when the response is sent. -/
structure FrameOutcome where
  response : FrameResp
  unlinked : List TempFile
  frameExistsAtEnd : Bool
  videoExistsAtEnd : Bool

def thumbFallbackNote : String :=
  "Frame extraction requires yt-dlp and ffmpeg. Using thumbnail as fallback."

/-- POST of the frame-extraction endpoint. The inner try wraps both
child-process invocations; its catch returns the thumbnail fallback with
HTTP 200 and performs no cleanup. Cleanup (unlink guarded by existsSync)
runs on the read-success path and in the top-level catch. -/
def framePOST (req : FrameReq) (env : FrameEnv) : FrameOutcome :=
  if !truthyOpt req.videoId then
    { response := .err "Video ID is required" 400
      unlinked := [], frameExistsAtEnd := false, videoExistsAtEnd := false }
  else
    let vid := (req.videoId).getD ""
    let _seconds := parseTimestamp (jsOr req.timestamp "0:00")
    match env.ytdlp with
    | .error _ =>
      { response := .okFallback (thumbUrlOf vid) thumbFallbackNote
        unlinked := [], frameExistsAtEnd := false, videoExistsAtEnd := false }
    | .ok _directUrl =>
      match env.ffmpeg with
      | .error _ =>
        { response := .okFallback (thumbUrlOf vid) thumbFallbackNote
          unlinked := [], frameExistsAtEnd := env.ffmpegCreatedFrame
          videoExistsAtEnd := false }
      | .ok _ =>
        if !env.ffmpegCreatedFrame then
          { response := .err "Failed to extract frame" 500
            unlinked := [], frameExistsAtEnd := false, videoExistsAtEnd := false }
        else
          match env.readErr with
          | some msg =>
            { response := .err msg 500
              unlinked := [.frameFile], frameExistsAtEnd := false
              videoExistsAtEnd := false }
          | none =>
            { response := .okFrame ("data:image/jpeg;base64," ++ env.frameBase64)
              unlinked := [.frameFile], frameExistsAtEnd := false
              videoExistsAtEnd := false }

/-- The transcript string the lookup handler assembles before truncation:
caption fragments joined with single spaces, or "" on transcript failure. -/
def joinedTranscript (env : YoutubeEnv) : String :=
  match env.transcriptItems with
  | .ok items => String.intercalate " " items
  | .error _ => ""

/-! Helper lemmas about the string-matching model. -/

theorem leadMatch_append (p t : List Char) : leadMatch p (p ++ t) = true := by
  induction p with
  | nil => rfl
  | cons c cs ih => simp [leadMatch, ih]

theorem leadMatch_exists {p l : List Char} (h : leadMatch p l = true) :
    ∃ t, p ++ t = l := by
  induction p generalizing l with
  | nil => exact ⟨l, rfl⟩
  | cons c cs ih =>
    cases l with
    | nil => simp [leadMatch] at h
    | cons d ds =>
      by_cases hcd : c = d
      · subst hcd
        simp only [leadMatch, if_pos rfl] at h
        obtain ⟨t, ht⟩ := ih h
        exact ⟨t, by simp [ht]⟩
      · simp [leadMatch, hcd] at h

theorem takeWhile_of_all {p : Char → Bool} {l : List Char}
    (h : ∀ c ∈ l, p c = true) : l.takeWhile p = l := by
  induction l with
  | nil => rfl
  | cons c cs ih =>
    rw [List.takeWhile_cons, h c (List.mem_cons_self c cs)]
    simpa using ih fun x hx => h x (List.mem_cons_of_mem c hx)

theorem isDelim_eq_false {c : Char} (h : isIdChar c = true) : isDelim c = false := by
  cases hdd : isDelim c with
  | false => rfl
  | true =>
    have hc : ((c = '&' ∨ c = '\n') ∨ c = '?') ∨ c = '#' := by
      simpa [isDelim, Bool.or_eq_true, beq_iff_eq] using hdd
    rcases hc with ((h1 | h1) | h1) | h1 <;> subst h1 <;> exact absurd h (by decide)

theorem captureAfter_self {pat l : List Char} (hne : l ≠ [])
    (hall : ∀ c ∈ l, (!isDelim c) = true) :
    captureAfter pat (pat ++ l) = some l := by
  have htake : l.takeWhile (fun c => !isDelim c) = l := takeWhile_of_all hall
  have hemp : l.isEmpty = false := by
    cases l with
    | nil => exact absurd rfl hne
    | cons a as => rfl
  simp [captureAfter, leadMatch_append, List.drop_left, htake, hemp]

theorem matchUrlAt_nil : matchUrlAt [] = none := rfl

theorem scanFor_eq_some {l r : List Char} (h : matchUrlAt l = some r) :
    scanFor l = some r := by
  cases l with
  | nil => rw [matchUrlAt_nil] at h; cases h
  | cons c cs => simp [scanFor, h]

theorem scanFor_cons_none {c : Char} {cs : List Char}
    (h : matchUrlAt (c :: cs) = none) : scanFor (c :: cs) = scanFor cs := by
  simp [scanFor, h]

theorem matchUrlAt_ne_y {c : Char} (cs : List Char) (h : c ≠ 'y') :
    matchUrlAt (c :: cs) = none := by
  have e1 : pat1 = 'y' :: "outube.com/watch?v=".data := rfl
  have e2 : pat2 = 'y' :: "outu.be/".data := rfl
  have e3 : pat3 = 'y' :: "outube.com/embed/".data := rfl
  have hy : ('y' = c) = False := by
    simp [eq_comm, h]
  simp [matchUrlAt, captureAfter, e1, e2, e3, leadMatch, hy]

theorem scanFor_append_no_y {pre : List Char} (h : ∀ c ∈ pre, c ≠ 'y')
    (l : List Char) : scanFor (pre ++ l) = scanFor l := by
  induction pre with
  | nil => rfl
  | cons c cs ih =>
    rw [List.cons_append,
        scanFor_cons_none (matchUrlAt_ne_y _ (h c (List.mem_cons_self c cs))),
        ih fun x hx => h x (List.mem_cons_of_mem c hx)]

theorem leadMatch_false_of_idChars {p l : List Char} (hdot : '.' ∈ p)
    (hid : ∀ c ∈ l, isIdChar c = true) : leadMatch p l = false := by
  cases hlm : leadMatch p l with
  | false => rfl
  | true =>
    obtain ⟨t, ht⟩ := leadMatch_exists hlm
    have hmem : '.' ∈ l := ht ▸ List.mem_append_left t hdot
    exact absurd (hid _ hmem) (by decide)

theorem matchUrlAt_none_of_idChars {l : List Char}
    (hid : ∀ c ∈ l, isIdChar c = true) : matchUrlAt l = none := by
  have h1 := leadMatch_false_of_idChars (p := pat1) (by decide) hid
  have h2 := leadMatch_false_of_idChars (p := pat2) (by decide) hid
  have h3 := leadMatch_false_of_idChars (p := pat3) (by decide) hid
  simp [matchUrlAt, captureAfter, h1, h2, h3]

theorem scanFor_none_of_idChars {l : List Char}
    (hid : ∀ c ∈ l, isIdChar c = true) : scanFor l = none := by
  induction l with
  | nil => rfl
  | cons c cs ih =>
    rw [scanFor_cons_none (matchUrlAt_none_of_idChars hid)]
    exact ih fun x hx => hid x (List.mem_cons_of_mem c hx)

theorem matchUrlAt_pat1 {l : List Char} (hne : l ≠ [])
    (hall : ∀ c ∈ l, (!isDelim c) = true) : matchUrlAt (pat1 ++ l) = some l := by
  simp [matchUrlAt, captureAfter_self hne hall]

theorem matchUrlAt_pat2 {l : List Char} (hne : l ≠ [])
    (hall : ∀ c ∈ l, (!isDelim c) = true) : matchUrlAt (pat2 ++ l) = some l := by
  have h1 : leadMatch pat1 (pat2 ++ l) = false := rfl
  have hc1 : captureAfter pat1 (pat2 ++ l) = none := by simp [captureAfter, h1]
  simp [matchUrlAt, hc1, captureAfter_self hne hall]

theorem matchUrlAt_pat3 {l : List Char} (hne : l ≠ [])
    (hall : ∀ c ∈ l, (!isDelim c) = true) : matchUrlAt (pat3 ++ l) = some l := by
  have h1 : leadMatch pat1 (pat3 ++ l) = false := rfl
  have h2 : leadMatch pat2 (pat3 ++ l) = false := rfl
  have hc1 : captureAfter pat1 (pat3 ++ l) = none := by simp [captureAfter, h1]
  have hc2 : captureAfter pat2 (pat3 ++ l) = none := by simp [captureAfter, h2]
  simp [matchUrlAt, hc1, hc2, captureAfter_self hne hall]

theorem assembleOutput_eq (parts : List GeminiPart) :
    ∀ acc : String × Option String,
      assembleOutput acc parts =
        ((lastText parts).getD acc.1, (lastImage parts).or acc.2) := by
  induction parts with
  | nil => intro acc; simp [assembleOutput, lastText, lastImage]
  | cons p rest ih =>
    intro acc
    rw [assembleOutput, ih]
    refine Prod.ext ?_ ?_
    · show (lastText rest).getD _ = (lastText (p :: rest)).getD acc.1
      rw [lastText]
      cases hlt : lastText rest with
      | some t => simp
      | none =>
        cases hp : p.text with
        | some t =>
          by_cases ht : t = "" <;> simp [hp, ht]
        | none => simp [hp]
    · show (lastImage rest).or _ = (lastImage (p :: rest)).or acc.2
      rw [lastImage]
      cases hli : lastImage rest with
      | some d => simp
      | none =>
        cases hp : p.inlineData with
        | some d =>
          by_cases hd : d = "" <;> simp [hp, hd]
        | none => simp [hp]

/-- C4 counterexample: the URL-shape regex of extractVideoId captures
every delimiter-free run, so an accepted watch URL can yield an ID of
length 3, refuting the claim that every accepted string yields an
11-character videoId. -/
theorem claim4_counterexample :
    extractVideoId "https://www.youtube.com/watch?v=abc" = some "abc" ∧
    ("abc".length = 11 → False) := by
  constructor
  · rfl
  · decide

/-- C4 amended: IDs extracted from the URL shapes are the raw
delimiter-free capture (not necessarily 11 characters); a bare token is
accepted only when it is exactly 11 id-class characters; and for every
11-character id over [A-Za-z0-9_-], all four accepted shapes (watch?v=,
youtu.be/, embed/, bare) extract exactly that id. -/
theorem claim4_amended (id : String) (hlen : id.length = 11)
    (hid : id.data.all isIdChar = true) :
    extractVideoId ("https://www.youtube.com/watch?v=" ++ id) = some id ∧
    extractVideoId ("https://youtu.be/" ++ id) = some id ∧
    extractVideoId ("https://www.youtube.com/embed/" ++ id) = some id ∧
    extractVideoId id = some id := by
  have hid' : ∀ c ∈ id.data, isIdChar c = true := by
    intro c hc
    exact List.all_eq_true.mp hid c hc
  have hall : ∀ c ∈ id.data, (!isDelim c) = true := by
    intro c hc
    rw [isDelim_eq_false (hid' c hc)]
    rfl
  have hlen' : id.data.length = 11 := hlen
  have hne : id.data ≠ [] := by
    intro h0
    rw [h0] at hlen'
    cases hlen'
  refine ⟨?_, ?_, ?_, ?_⟩
  · have hdata : ("https://www.youtube.com/watch?v=" ++ id).data
        = "https://www.".data ++ (pat1 ++ id.data) := by
      rw [String.data_append]
      rfl
    have hscan : scanFor (("https://www.youtube.com/watch?v=" ++ id).data)
        = some id.data := by
      rw [hdata, scanFor_append_no_y (by decide)]
      exact scanFor_eq_some (matchUrlAt_pat1 hne hall)
    simp only [extractVideoId]
    rw [hscan]
  · have hdata : ("https://youtu.be/" ++ id).data
        = "https://".data ++ (pat2 ++ id.data) := by
      rw [String.data_append]
      rfl
    have hscan : scanFor (("https://youtu.be/" ++ id).data) = some id.data := by
      rw [hdata, scanFor_append_no_y (by decide)]
      exact scanFor_eq_some (matchUrlAt_pat2 hne hall)
    simp only [extractVideoId]
    rw [hscan]
  · have hdata : ("https://www.youtube.com/embed/" ++ id).data
        = "https://www.".data ++ (pat3 ++ id.data) := by
      rw [String.data_append]
      rfl
    have hscan : scanFor (("https://www.youtube.com/embed/" ++ id).data)
        = some id.data := by
      rw [hdata, scanFor_append_no_y (by decide)]
      exact scanFor_eq_some (matchUrlAt_pat3 hne hall)
    simp only [extractVideoId]
    rw [hscan]
  · simp [extractVideoId, scanFor_none_of_idChars hid', hlen', hid]

/-- C4 witness: the amended theorem applied to the concrete id
dQw4w9WgXcQ. -/
theorem claim4_witness :
    extractVideoId ("https://www.youtube.com/watch?v=" ++ "dQw4w9WgXcQ") = some "dQw4w9WgXcQ" ∧
    extractVideoId ("https://youtu.be/" ++ "dQw4w9WgXcQ") = some "dQw4w9WgXcQ" ∧
    extractVideoId ("https://www.youtube.com/embed/" ++ "dQw4w9WgXcQ") = some "dQw4w9WgXcQ" ∧
    extractVideoId "dQw4w9WgXcQ" = some "dQw4w9WgXcQ" :=
  claim4_amended "dQw4w9WgXcQ" (by decide) (by decide)

/-- C5: timestamp parsing sends 1:30 to 90 seconds and 1:02:03 to 3723
seconds; any string whose split on colon has neither two nor three
components (such as abc or the empty string) parses to 0 seconds; and an
omitted timestamp is defaulted to 0:00, which parses to 0 seconds. -/
theorem claim5_timestamp_parsing :
    parseTimestamp "1:30" = some 90 ∧
    parseTimestamp "1:02:03" = some 3723 ∧
    parseTimestamp "abc" = some 0 ∧
    parseTimestamp "" = some 0 ∧
    jsOr none "0:00" = "0:00" ∧
    parseTimestamp "0:00" = some 0 ∧
    (∀ s : String, (jsSplit s ':').length ≠ 2 → (jsSplit s ':').length ≠ 3 →
      parseTimestamp s = some 0) := by
  refine ⟨by decide, by decide, by decide, by decide, rfl, by decide, ?_⟩
  intro s h2 h3
  unfold parseTimestamp
  have hlen : ((jsSplit s ':').map jsNumber).length = (jsSplit s ':').length :=
    List.length_map _ _
  rcases hml : (jsSplit s ':').map jsNumber with _ | ⟨a, _ | ⟨b, _ | ⟨c, rest⟩⟩⟩
  · rfl
  · rfl
  · rw [hml] at hlen
    exact absurd hlen.symm h2
  · cases rest with
    | nil =>
      rw [hml] at hlen
      exact absurd hlen.symm h3
    | cons d ds => rfl

/-- C5 witness: the general zero-default conjunct applied to a
four-component timestamp string. -/
theorem claim5_witness : parseTimestamp "1:2:3:4" = some 0 :=
  claim5_timestamp_parsing.2.2.2.2.2.2 "1:2:3:4" (by decide) (by decide)

/-- C6 counterexample: the empty string is rejected by both regexes of
extractVideoId, yet the lookup endpoint answers it with the message URL
is required, not Invalid YouTube URL, because the falsy-URL guard runs
first. -/
theorem claim6_counterexample :
    extractVideoId "" = none ∧
    youtubePOST "" ⟨.error (), .error ()⟩ = (.err "URL is required" 400, []) ∧
    ("URL is required" = "Invalid YouTube URL" → False) := by
  refine ⟨rfl, rfl, by decide⟩

/-- C6 amended: for every nonempty input string rejected by both
regexes, the lookup endpoint returns 400 with Invalid YouTube URL and
performs no outbound fetch; the empty string instead gets the 400 URL is
required response (also with no outbound fetch). -/
theorem claim6_amended (url : String) (env : YoutubeEnv)
    (hu : url ≠ "") (h : extractVideoId url = none) :
    youtubePOST url env = (.err "Invalid YouTube URL" 400, []) := by
  simp [youtubePOST, hu, h]

/-- C6 witness: the amended theorem applied to a concrete unparseable
string. -/
theorem claim6_witness :
    extractVideoId "not a url!!" = none ∧
    youtubePOST "not a url!!" ⟨.error (), .error ()⟩ =
      (.err "Invalid YouTube URL" 400, []) :=
  ⟨by decide, claim6_amended "not a url!!" ⟨.error (), .error ()⟩ (by decide) (by decide)⟩

/-- C7: whenever the video id parses and the oEmbed fetch succeeds, a
transcript-fetch failure leaves the endpoint returning the 200 success
shape with transcript equal to the empty string and every other field as
derived from the id and the oEmbed metadata. -/
theorem claim7_transcript_failure_degrades (url vid : String)
    (meta : OembedMeta) (env : YoutubeEnv)
    (hu : url ≠ "") (hv : extractVideoId url = some vid)
    (hm : env.oembed = .ok meta) (ht : env.transcriptItems = .error ()) :
    youtubePOST url env =
      (.ok { videoId := vid, title := meta.title, author := meta.author_name,
             thumbnailUrl := thumbUrlOf vid, transcript := "" },
       [.oembedFetch (oembedUrlOf vid), .transcriptFetch vid]) := by
  simp [youtubePOST, hu, hv, hm, ht]
  rfl

/-- C7 witness: the theorem applied to a bare-id request whose transcript
provider throws. -/
theorem claim7_witness :
    youtubePOST "dQw4w9WgXcQ" ⟨.ok ⟨"T", "A"⟩, .error ()⟩ =
      (.ok ⟨"dQw4w9WgXcQ", "T", "A", thumbUrlOf "dQw4w9WgXcQ", ""⟩,
       [.oembedFetch (oembedUrlOf "dQw4w9WgXcQ"), .transcriptFetch "dQw4w9WgXcQ"]) :=
  claim7_transcript_failure_degrades "dQw4w9WgXcQ" "dQw4w9WgXcQ" ⟨"T", "A"⟩
    ⟨.ok ⟨"T", "A"⟩, .error ()⟩ (by decide) (by decide) rfl rfl

theorem jsSlice_length_le (s : String) (n : Nat) : (jsSlice s n).length ≤ n := by
  have h : (jsSlice s n).length = (s.data.take n).length := rfl
  rw [h, List.length_take]
  exact min_le_left _ _

/-- C8: every successful lookup response carries as transcript exactly
the caption fragments joined with single spaces (empty on transcript
failure) truncated to 5000 characters, so its length never exceeds
5000. -/
theorem claim8_transcript_truncated (url : String) (env : YoutubeEnv)
    (body : YoutubeSuccess) (calls : List NetCall)
    (h : youtubePOST url env = (.ok body, calls)) :
    body.transcript = jsSlice (joinedTranscript env) 5000 ∧
    body.transcript.length ≤ 5000 := by
  by_cases hu : url = ""
  · simp [youtubePOST, hu] at h
  · rcases hv : extractVideoId url with _ | vid
    · simp [youtubePOST, hu, hv] at h
    · rcases hm : env.oembed with _ | meta
      · simp [youtubePOST, hu, hv, hm] at h
      · rcases ht : env.transcriptItems with _ | items
        · simp [youtubePOST, hu, hv, hm, ht] at h
          have hb : body.transcript = jsSlice "" 5000 := by
            rw [← h.1]
          refine ⟨?_, ?_⟩
          · rw [hb]
            simp [joinedTranscript, ht]
          · rw [hb]
            exact jsSlice_length_le _ _
        · simp [youtubePOST, hu, hv, hm, ht] at h
          have hb : body.transcript = jsSlice (String.intercalate " " items) 5000 := by
            rw [← h.1]
          refine ⟨?_, ?_⟩
          · rw [hb]
            simp [joinedTranscript, ht]
          · rw [hb]
            exact jsSlice_length_le _ _

/-- C8 witness: the theorem applied to a concrete successful lookup. -/
theorem claim8_witness :
    (⟨"dQw4w9WgXcQ", "T", "A", thumbUrlOf "dQw4w9WgXcQ", "hello world"⟩ : YoutubeSuccess).transcript
        = jsSlice (joinedTranscript ⟨.ok ⟨"T", "A"⟩, .ok ["hello", "world"]⟩) 5000 ∧
    (⟨"dQw4w9WgXcQ", "T", "A", thumbUrlOf "dQw4w9WgXcQ", "hello world"⟩ : YoutubeSuccess).transcript.length ≤ 5000 :=
  claim8_transcript_truncated "dQw4w9WgXcQ" ⟨.ok ⟨"T", "A"⟩, .ok ["hello", "world"]⟩
    ⟨"dQw4w9WgXcQ", "T", "A", thumbUrlOf "dQw4w9WgXcQ", "hello world"⟩
    [.oembedFetch (oembedUrlOf "dQw4w9WgXcQ"), .transcriptFetch "dQw4w9WgXcQ"]
    (by decide)

/-- C9: every successful response of either image-generation endpoint
reports width 1200 and height 628, independently of the provider
response. -/
theorem claim9_fixed_dimensions :
    (∀ (req : GenerateReq) (env : GenerateEnv) (body : GeneratedImage),
       generatePOST req env = .ok body → body.width = 1200 ∧ body.height = 628) ∧
    (∀ (req : EnhancedReq) (env : EnhancedEnv) (body : GeneratedImage),
       (enhancedPOST req env).response = .ok body →
         body.width = 1200 ∧ body.height = 628) := by
  constructor
  · intro req env body h
    unfold generatePOST at h
    repeat' (first | split at h | dsimp only at h)
    all_goals cases h
    all_goals exact ⟨rfl, rfl⟩
  · intro req env body h
    unfold enhancedPOST at h
    repeat' (first | split at h | dsimp only at h)
    all_goals cases h
    all_goals exact ⟨rfl, rfl⟩

/-- C9 witness: both endpoints applied to concrete successful runs. -/
theorem claim9_witness :
    generatePOST ⟨"t", "", ""⟩ ⟨some "k", .ok (some [⟨some "p", some "d"⟩])⟩ =
      .ok ⟨"p", "data:image/png;base64,d", 1200, 628⟩ ∧
    (⟨"p", "data:image/png;base64,d", 1200, 628⟩ : GeneratedImage).width = 1200 ∧
    (⟨"p", "data:image/png;base64,d", 1200, 628⟩ : GeneratedImage).height = 628 ∧
    (enhancedPOST ⟨"t", "", "", none, none⟩
        ⟨some "k", .ok "x", .ok (some [⟨some "p", some "d"⟩])⟩).response =
      .ok ⟨"p", "data:image/png;base64,d", 1200, 628⟩ ∧
    (⟨"p", "data:image/png;base64,d", 1200, 628⟩ : GeneratedImage).width = 1200 :=
  ⟨rfl,
   (claim9_fixed_dimensions.1 ⟨"t", "", ""⟩ ⟨some "k", .ok (some [⟨some "p", some "d"⟩])⟩
      ⟨"p", "data:image/png;base64,d", 1200, 628⟩ rfl).1,
   (claim9_fixed_dimensions.1 ⟨"t", "", ""⟩ ⟨some "k", .ok (some [⟨some "p", some "d"⟩])⟩
      ⟨"p", "data:image/png;base64,d", 1200, 628⟩ rfl).2,
   rfl,
   (claim9_fixed_dimensions.2 ⟨"t", "", "", none, none⟩
      ⟨some "k", .ok "x", .ok (some [⟨some "p", some "d"⟩])⟩
      ⟨"p", "data:image/png;base64,d", 1200, 628⟩ rfl).1⟩

/-- C3 counterexample: with two truthy text parts and two truthy image
parts in the provider response, /api/generate reports the second text
part and returns the second image part — the overwrite loop keeps the
last part, not the first one the claim asserts. -/
theorem claim3_counterexample :
    generatePOST ⟨"t", "", ""⟩
        ⟨some "k", .ok (some [⟨some "first", some "i1"⟩, ⟨some "second", some "i2"⟩])⟩ =
      .ok ⟨"second", "data:image/png;base64,i2", 1200, 628⟩ ∧
    ("second" = "first" → False) ∧ ("i2" = "i1" → False) :=
  ⟨rfl, by decide, by decide⟩

/-- C3 amended: the LAST truthy text part becomes imagePrompt and the
LAST truthy inline-image part becomes imageData; when the provider
returns no text part, /api/generate falls back to the full constructed
generation prompt (not a static label), while the enhanced endpoint
falls back to the static labels Enhanced from source image / AI
generated according to its mode. -/
theorem claim3_amended :
    (∀ (req : GenerateReq) (env : GenerateEnv) (parts : List GeminiPart) (d : String),
       truthyOpt env.apiKey = true → env.provider = .ok (some parts) →
       lastImage parts = some d →
       generatePOST req env =
         .ok { imagePrompt := (lastText parts).getD
                 (generatePrompt req.title req.transcript req.style),
               imageData := "data:image/png;base64," ++ d,
               width := 1200, height := 628 }) ∧
    (∀ (req : EnhancedReq) (env : EnhancedEnv) (parts : List GeminiPart)
       (d m p src : String),
       truthyOpt env.apiKey = true →
       req.mode = some "enhance" → req.sourceImage = some src → src ≠ "" →
       dataUriMatch src = some (m, p) →
       env.provider = .ok (some parts) → lastImage parts = some d →
       (enhancedPOST req env).response =
         .ok { imagePrompt := (lastText parts).getD "Enhanced from source image",
               imageData := "data:image/png;base64," ++ d,
               width := 1200, height := 628 }) ∧
    (∀ (req : EnhancedReq) (env : EnhancedEnv) (parts : List GeminiPart) (d : String),
       truthyOpt env.apiKey = true →
       req.mode = none →
       env.provider = .ok (some parts) → lastImage parts = some d →
       (enhancedPOST req env).response =
         .ok { imagePrompt := (lastText parts).getD "AI generated",
               imageData := "data:image/png;base64," ++ d,
               width := 1200, height := 628 }) := by
  refine ⟨?_, ?_, ?_⟩
  · intro req env parts d hkey hp himg
    simp [generatePOST, hkey, hp, assembleOutput_eq, himg,
          SHOPIFY_IMAGE_WIDTH, SHOPIFY_IMAGE_HEIGHT]
  · intro req env parts d m p src hkey hmode hsrc hne hmatch hp himg
    have hdata : leadMatch "data:".data src.data = true := by
      cases hl : leadMatch "data:".data src.data with
      | true => rfl
      | false =>
        rw [dataUriMatch, hl] at hmatch
        simp at hmatch
    have hstr : truthyOpt (some src) = true := by
      simp [truthyOpt, hne]
    simp [enhancedPOST, hkey, hmode, hsrc, hstr, hdata, hmatch, hp,
          assembleOutput_eq, himg, SHOPIFY_IMAGE_WIDTH, SHOPIFY_IMAGE_HEIGHT]
  · intro req env parts d hkey hmode hp himg
    simp [enhancedPOST, hkey, hmode, hp, assembleOutput_eq, himg,
          SHOPIFY_IMAGE_WIDTH, SHOPIFY_IMAGE_HEIGHT]

/-- C3 witness: the three amended conjuncts applied to concrete
provider responses with two text and two image parts. -/
theorem claim3_witness :
    generatePOST ⟨"t", "", ""⟩
        ⟨some "k", .ok (some [⟨some "a", some "i1"⟩, ⟨some "b", some "i2"⟩])⟩ =
      .ok ⟨(lastText [⟨some "a", some "i1"⟩, ⟨some "b", some "i2"⟩]).getD
             (generatePrompt "t" "" ""),
           "data:image/png;base64,i2", 1200, 628⟩ ∧
    (enhancedPOST ⟨"t", "", "", some "data:image/png;base64,AAA", some "enhance"⟩
        ⟨some "k", .ok "x", .ok (some [⟨none, some "img"⟩])⟩).response =
      .ok ⟨(lastText [⟨none, some "img"⟩]).getD "Enhanced from source image",
           "data:image/png;base64,img", 1200, 628⟩ ∧
    (enhancedPOST ⟨"t", "", "", none, none⟩
        ⟨some "k", .ok "x", .ok (some [⟨none, some "img"⟩])⟩).response =
      .ok ⟨(lastText [⟨none, some "img"⟩]).getD "AI generated",
           "data:image/png;base64,img", 1200, 628⟩ :=
  ⟨claim3_amended.1 ⟨"t", "", ""⟩
      ⟨some "k", .ok (some [⟨some "a", some "i1"⟩, ⟨some "b", some "i2"⟩])⟩
      [⟨some "a", some "i1"⟩, ⟨some "b", some "i2"⟩] "i2" rfl rfl (by decide),
   claim3_amended.2.1 ⟨"t", "", "", some "data:image/png;base64,AAA", some "enhance"⟩
      ⟨some "k", .ok "x", .ok (some [⟨none, some "img"⟩])⟩
      [⟨none, some "img"⟩] "img" "image/png" "AAA" "data:image/png;base64,AAA"
      rfl rfl rfl (by decide) (by decide) rfl (by decide),
   claim3_amended.2.2 ⟨"t", "", "", none, none⟩
      ⟨some "k", .ok "x", .ok (some [⟨none, some "img"⟩])⟩
      [⟨none, some "img"⟩] "img" rfl rfl rfl (by decide)⟩

/-- C10: a request with mode enhance but a missing or empty sourceImage
is not rejected: the truthiness guard fails, the handler falls through
to the text-only generate branch, sends exactly the generation prompt to
the provider, and returns the normal success shape when the provider
returns an image (the no-text default label still being the enhance
one, since that choice tests only the mode). -/
theorem claim10_enhance_without_source (req : EnhancedReq) (env : EnhancedEnv)
    (parts : List GeminiPart) (d : String)
    (hmode : req.mode = some "enhance") (hsrc : truthyOpt req.sourceImage = false)
    (hkey : truthyOpt env.apiKey = true)
    (hp : env.provider = .ok (some parts)) (himg : lastImage parts = some d) :
    enhancedPOST req env =
      { response := .ok { imagePrompt := (lastText parts).getD "Enhanced from source image",
                          imageData := "data:image/png;base64," ++ d,
                          width := 1200, height := 628 },
        providerCalled := true,
        sentParts := [.textPart (generatePrompt req.title req.transcript req.style)] } := by
  simp [enhancedPOST, hkey, hmode, hsrc, hp, assembleOutput_eq, himg,
        SHOPIFY_IMAGE_WIDTH, SHOPIFY_IMAGE_HEIGHT]

/-- C10 witness: the theorem applied to an enhance-mode request with an
absent sourceImage and to one with an empty sourceImage. -/
theorem claim10_witness :
    enhancedPOST ⟨"t", "", "", none, some "enhance"⟩
        ⟨some "k", .ok "x", .ok (some [⟨none, some "img"⟩])⟩ =
      { response := .ok ⟨(lastText [⟨none, some "img"⟩]).getD "Enhanced from source image",
                         "data:image/png;base64,img", 1200, 628⟩,
        providerCalled := true,
        sentParts := [.textPart (generatePrompt "t" "" "")] } ∧
    enhancedPOST ⟨"t", "", "", some "", some "enhance"⟩
        ⟨some "k", .ok "x", .ok (some [⟨none, some "img"⟩])⟩ =
      { response := .ok ⟨(lastText [⟨none, some "img"⟩]).getD "Enhanced from source image",
                         "data:image/png;base64,img", 1200, 628⟩,
        providerCalled := true,
        sentParts := [.textPart (generatePrompt "t" "" "")] } :=
  ⟨claim10_enhance_without_source ⟨"t", "", "", none, some "enhance"⟩
      ⟨some "k", .ok "x", .ok (some [⟨none, some "img"⟩])⟩
      [⟨none, some "img"⟩] "img" rfl rfl rfl rfl (by decide),
   claim10_enhance_without_source ⟨"t", "", "", some "", some "enhance"⟩
      ⟨some "k", .ok "x", .ok (some [⟨none, some "img"⟩])⟩
      [⟨none, some "img"⟩] "img" rfl rfl rfl rfl (by decide)⟩

/-- C1 counterexample: in enhance mode with sourceImage data:image/png
(which starts with data: but fails the data-URI regex), the enhanced
endpoint responds with status 500 carrying the thrown Invalid base64
image format message — not an InvalidInput 400 as claimed — although the
provider is indeed never called. -/
theorem claim1_counterexample :
    (enhancedPOST ⟨"t", "", "", some "data:image/png", some "enhance"⟩
        ⟨some "k", .ok "x", .ok (some [⟨none, some "img"⟩])⟩).response =
      .err "Invalid base64 image format" 500 ∧
    ((500 : Nat) = 400 → False) ∧
    (enhancedPOST ⟨"t", "", "", some "data:image/png", some "enhance"⟩
        ⟨some "k", .ok "x", .ok (some [⟨none, some "img"⟩])⟩).providerCalled = false :=
  ⟨rfl, by decide, rfl⟩

/-- C1 amended: with the API key configured, mode enhance and a nonempty
sourceImage that starts with data: but does not match the
data-mime-base64-payload shape, the endpoint fails with HTTP status 500
(not 400) carrying the message Invalid base64 image format, and the
image-generation provider is never invoked. -/
theorem claim1_amended (req : EnhancedReq) (env : EnhancedEnv) (src : String)
    (hkey : truthyOpt env.apiKey = true)
    (hmode : req.mode = some "enhance") (hsrc : req.sourceImage = some src)
    (hne : src ≠ "") (hdata : leadMatch "data:".data src.data = true)
    (hfail : dataUriMatch src = none) :
    enhancedPOST req env =
      { response := .err "Invalid base64 image format" 500,
        providerCalled := false, sentParts := [] } := by
  have hstr : truthyOpt (some src) = true := by
    simp [truthyOpt, hne]
  simp [enhancedPOST, hkey, hmode, hsrc, hstr, hdata, hfail]

/-- C1 witness: the amended theorem applied to the concrete malformed
data URI data:image/png. -/
theorem claim1_witness :
    enhancedPOST ⟨"t", "", "", some "data:image/png", some "enhance"⟩
        ⟨some "k", .error "unused", .ok (some [⟨none, some "img"⟩])⟩ =
      { response := .err "Invalid base64 image format" 500,
        providerCalled := false, sentParts := [] } :=
  claim1_amended ⟨"t", "", "", some "data:image/png", some "enhance"⟩
    ⟨some "k", .error "unused", .ok (some [⟨none, some "img"⟩])⟩
    "data:image/png" rfl rfl rfl (by decide) (by decide) (by decide)

/-- C2 counterexample: when URL resolution succeeds but the ffmpeg
invocation fails after having created the frame file, the endpoint does
return 200 with the thumbnail fallback and note, but performs no unlink
at all, and the frame temp file still exists when the response is sent —
refuting the deletion part of the claim. -/
theorem claim2_counterexample :
    (framePOST ⟨some "abc", none⟩ ⟨.ok "u", .error "boom", true, "", none⟩).response =
      .okFallback (thumbUrlOf "abc") thumbFallbackNote ∧
    (framePOST ⟨some "abc", none⟩ ⟨.ok "u", .error "boom", true, "", none⟩).unlinked = [] ∧
    (framePOST ⟨some "abc", none⟩ ⟨.ok "u", .error "boom", true, "", none⟩).frameExistsAtEnd = true :=
  ⟨rfl, rfl, rfl⟩

/-- C2 amended: if either tool invocation fails, the endpoint does
return HTTP 200 with the thumbnail-convention URL and the explanatory
note (never a 500), but no temp-file deletion happens on this fallback
path: cleanup runs only on the read-success path and in the top-level
catch, so a frame file created by a failed ffmpeg run is left behind. -/
theorem claim2_amended (req : FrameReq) (env : FrameEnv) (vid : String)
    (hvid : req.videoId = some vid) (hne : vid ≠ "")
    (hfail : (∃ e, env.ytdlp = .error e) ∨
             ∃ u e, env.ytdlp = .ok u ∧ env.ffmpeg = .error e) :
    (framePOST req env).response = .okFallback (thumbUrlOf vid) thumbFallbackNote ∧
    (framePOST req env).unlinked = [] := by
  have htr : truthyOpt (some vid) = true := by
    simp [truthyOpt, hne]
  rcases hfail with ⟨e, hy⟩ | ⟨u, e, hy, hf⟩
  · simp [framePOST, htr, hvid, hy]
  · simp [framePOST, htr, hvid, hy, hf]

/-- C2 witness: the amended theorem applied to a request whose URL
resolution fails. -/
theorem claim2_witness :
    (framePOST ⟨some "abc", none⟩ ⟨.error "nope", .ok (), false, "", none⟩).response =
      .okFallback (thumbUrlOf "abc") thumbFallbackNote ∧
    (framePOST ⟨some "abc", none⟩ ⟨.error "nope", .ok (), false, "", none⟩).unlinked = [] :=
  claim2_amended ⟨some "abc", none⟩ ⟨.error "nope", .ok (), false, "", none⟩
    "abc" rfl (by decide) (Or.inl ⟨"nope", rfl⟩)

end BlogThumb
